import Mathlib

/-!
# Verification of `ff-cookie-exception-manager`

A shallow embedding of the cookie-exception rule model (`ff.py`) and the
synchronization driver (`sync.py`) of the `ff-cookie-exception-manager`
repository, together with theorems settling the specification's claims
about them.

Conventions of the embedding:
* Python `datetime` values are modelled by their calendar components
  (`PyDatetime`); `datetime.isoformat` and `datetime.fromisoformat` are
  modelled on the canonical zero-padded format that `isoformat` emits.
* JSON scalar values that may be either strings or integers are modelled
  by `JsonVal`.
* Python code paths that raise (`ValueError`, `AssertionError`) or call
  `exit(1)` are modelled with `Option`/explicit fatal results.
* `syncDate` values are ISO strings compared with Python string `<`/`==`,
  which is lexicographic by code point, exactly as Lean's `String` order.
-/

namespace FFCEM

/-- `CookieExceptionRule.Permission`, an enum with values `ALWAYS = 1`,
`SESSION = 8` (`ff.py`, lines 80-82). -/
inductive Permission where
  | ALWAYS
  | SESSION
deriving DecidableEq, Repr

/-- The `.value` of an enum member. -/
def Permission.value : Permission → Int
  | .ALWAYS => 1
  | .SESSION => 8

/-- The `.name` of an enum member. -/
def Permission.pyName : Permission → String
  | .ALWAYS => "ALWAYS"
  | .SESSION => "SESSION"

/-- Python semantics: `==` between an `Enum` member and a `str` is never
true (`Enum.__eq__` falls back to identity comparison), so membership of
an enum member in a tuple of strings is always false. -/
def pyEnumEqStr (_ : Permission) (_ : String) : Bool := false

/-- A Python `datetime`, modelled by its calendar components. -/
structure PyDatetime where
  year : Int
  month : Nat
  day : Nat
  hour : Nat
  minute : Nat
  second : Nat
  microsecond : Nat
deriving DecidableEq, Repr

/-- Zero-pad a natural number to two digits, as `datetime.isoformat` does. -/
def pad2 (n : Nat) : String :=
  if n < 10 then "0" ++ toString n else toString n

/-- Zero-pad a year to four digits. -/
def pad4 (n : Int) : String :=
  let t := toString n.toNat
  String.mk (List.replicate (4 - t.length) '0') ++ t

/-- Zero-pad a microsecond count to six digits. -/
def pad6 (n : Nat) : String :=
  let t := toString n
  String.mk (List.replicate (6 - t.length) '0') ++ t

/-- `datetime.isoformat()`: `YYYY-MM-DDTHH:MM:SS[.ffffff]`, the fractional
part present exactly when `microsecond` is nonzero. -/
def PyDatetime.isoformat (d : PyDatetime) : String :=
  pad4 d.year ++ "-" ++ pad2 d.month ++ "-" ++ pad2 d.day ++ "T" ++
    pad2 d.hour ++ ":" ++ pad2 d.minute ++ ":" ++ pad2 d.second ++
    (if d.microsecond == 0 then "" else "." ++ pad6 d.microsecond)

/-- Parse a fixed-width decimal field. -/
def parseField (width : Nat) (s : String) : Option Nat :=
  if s.length == width && s.toList.all Char.isDigit then s.toNat? else none

/-- `datetime.fromisoformat` on the canonical format produced by
`isoformat` (date, optional `T` time, optional `.ffffff` fraction);
any other input is modelled as a `ValueError` (`none`). -/
def PyDatetime.fromisoformat (s : String) : Option PyDatetime :=
  let parseDate : String → Option (Int × Nat × Nat) := fun ds =>
    match ds.splitOn "-" with
    | [ys, ms, dds] =>
      match parseField 4 ys, parseField 2 ms, parseField 2 dds with
      | some y, some m, some dd => some (Int.ofNat y, m, dd)
      | _, _, _ => none
    | _ => none
  let parseTime : String → Option (Nat × Nat × Nat × Nat) := fun ts =>
    match ts.splitOn ":" with
    | [hs, mins, rest] =>
      match rest.splitOn "." with
      | [ss] =>
        match parseField 2 hs, parseField 2 mins, parseField 2 ss with
        | some h, some mi, some sec => some (h, mi, sec, 0)
        | _, _, _ => none
      | [ss, fs] =>
        match parseField 2 hs, parseField 2 mins, parseField 2 ss,
            parseField 6 fs with
        | some h, some mi, some sec, some f => some (h, mi, sec, f)
        | _, _, _, _ => none
      | _ => none
    | _ => none
  match s.splitOn "T" with
  | [ds] =>
    (parseDate ds).map fun (y, m, dd) => ⟨y, m, dd, 0, 0, 0, 0⟩
  | [ds, ts] =>
    match parseDate ds, parseTime ts with
    | some (y, m, dd), some (h, mi, sec, f) => some ⟨y, m, dd, h, mi, sec, f⟩
    | _, _ => none
  | _ => none

/-- `CookieExceptionRule` (`ff.py`, lines 79-132).  The derived field
`modificationTimestamp` is a function of `modificationTime`, so Python's
`__eq__` (comparison of `__dict__`) coincides with structural equality on
these three fields. -/
structure CookieExceptionRule where
  origin : String
  permission : Permission
  modificationTime : PyDatetime
deriving DecidableEq, Repr

/-- Python `"://" in origin`: substring containment. -/
def hasSchemeSep (s : String) : Bool :=
  decide ("://".toList <:+: s.toList)

/-- `CookieExceptionRule.verify` (`ff.py`, lines 95-108), line by line:
`if self.permission not in ("always", "session"): return False`, then the
`"://"` check on `origin`, then the year-range check on
`modificationTime`. -/
def CookieExceptionRule.verify (r : CookieExceptionRule) : Bool :=
  if !(pyEnumEqStr r.permission "always" || pyEnumEqStr r.permission "session") then
    false
  else if !hasSchemeSep r.origin then
    false
  else if r.modificationTime.year < 2000 || r.modificationTime.year > 2050 then
    false
  else
    true

/-- A JSON scalar that is either a string or an integer. -/
inductive JsonVal where
  | str (s : String)
  | int (n : Int)
deriving DecidableEq, Repr

/-- The dictionary produced by `CookieExceptionRule.to_dict` and consumed
by `CookieExceptionRule.from_dict`. -/
structure RuleDict where
  origin : String
  permission : JsonVal
  modificationTime : String
deriving DecidableEq, Repr

/-- `CookieExceptionRule.to_dict` (`ff.py`, lines 113-118): origin,
`permission.name`, `modificationTime.isoformat()`. -/
def CookieExceptionRule.to_dict (r : CookieExceptionRule) : RuleDict :=
  ⟨r.origin, .str r.permission.pyName, r.modificationTime.isoformat⟩

/-- The Python enum call `Permission(v)`: lookup of a member **by value**
(the values are the integers `1` and `8`); any other argument raises
`ValueError`, modelled as `none`. -/
def Permission.ofValue : JsonVal → Option Permission
  | .int 1 => some .ALWAYS
  | .int 8 => some .SESSION
  | _ => none

/-- `CookieExceptionRule.from_dict` (`ff.py`, lines 126-132):
`Permission(d["permission"])` then
`datetime.fromisoformat(d["modificationTime"])`; either raising models as
`none`. -/
def CookieExceptionRule.from_dict (d : RuleDict) : Option CookieExceptionRule :=
  (Permission.ofValue d.permission).bind fun p =>
    (PyDatetime.fromisoformat d.modificationTime).map fun t =>
      ⟨d.origin, p, t⟩

/-! ## The synchronization driver (`sync.py`) -/

/-- A sync state dictionary `{"syncDate": ISO string, "exceptionRules": [...]}`
as held by `last_sync_state`, `local_state`, `remote_state` in `sync.py`. -/
structure SyncState where
  syncDate : String
  exceptionRules : List CookieExceptionRule
deriving DecidableEq, Repr

/-- Lexicographic strict comparison of character lists by code point:
the order Python uses for `str < str`. -/
def chListLt : List Char → List Char → Bool
  | [], [] => false
  | [], _ :: _ => true
  | _ :: _, [] => false
  | a :: as, b :: bs =>
    if a.toNat < b.toNat then true
    else if b.toNat < a.toNat then false
    else chListLt as bs

/-- Python `a < b` on strings: lexicographic by code point. -/
def pyStrLt (a b : String) : Bool :=
  chListLt a.toList b.toList

/-- Python `set(a) == set(b)` on lists of hashable rule objects:
extensional equality of the element sets. -/
def rulesSetEq (a b : List CookieExceptionRule) : Bool :=
  a.all (fun r => decide (r ∈ b)) && b.all (fun r => decide (r ∈ a))

/-- `datetime(1970, 1, 1).isoformat()`: the empty placeholder state used
both for a missing baseline file and for a missing remote state
(`sync.py`, lines 266-269 and 287-290). -/
def epochState : SyncState := ⟨"1970-01-01T00:00:00", []⟩

/-- The observable writes of one run: the local full replace
(`ff.replaceRules`), a remote upload (`uploadSyncState`), the baseline
persist (`saveLastSyncState`), and the local backup-file copy
(`backupSyncState`). -/
inductive Effect where
  | localReplace (rules : List CookieExceptionRule)
  | remoteUpload (s : SyncState)
  | baselinePersist (s : SyncState)
  | backupFile
deriving DecidableEq, Repr

/-- The program sites at which a run dies: each corresponds to one
`exit(1)` call or uncaught `AssertionError` in `sync.py`/`ff.py`. -/
inductive FatalSite where
  | downloadFailed
  | panic
  | invalidMergeStrategy
  | uploadFailed
  | emptyRulesAssert
  | impossibleState
  | backupAssert
deriving DecidableEq, Repr

/-- How one invocation of `main` ends: `fatal` is `exit(1)` or an uncaught
exception, `success` is an explicit `exit(0)`, `completed` is `main`
returning normally (process exit code 0).  Each carries the writes
performed before that point, in order. -/
inductive RunResult where
  | fatal (site : FatalSite) (effects : List Effect)
  | success (effects : List Effect)
  | completed (effects : List Effect)
deriving DecidableEq, Repr

/-- The writes a run performed. -/
def RunResult.effects : RunResult → List Effect
  | .fatal _ es => es
  | .success es => es
  | .completed es => es

/-- Result of `downloadSyncState`: the file, a 404 (`None`, triggering
bootstrap), or any other WebDAV error (fatal). -/
inductive DownloadResult where
  | notFound
  | ok (s : SyncState)
  | err
deriving DecidableEq, Repr

/-- Everything `main` reads from its surroundings: flags, configuration,
the baseline file, the Firefox store, the clock and the network. -/
structure Env where
  /-- `args.simulate`. -/
  simulate : Bool
  /-- truthiness of `config.get("sync", "panic")`. -/
  panicCfg : Bool
  /-- `config.get("sync", "merge_statergy", fallback="use_newest")`. -/
  mergeStrategy : String
  /-- truthiness of `config.get("backup", "enabled")`. -/
  backupEnabled : Bool
  /-- `config.get("backup", "interval")` is set and parses in
  `intervalToSeconds`. -/
  backupIntervalOk : Bool
  /-- the backups directory mtime is older than the interval. -/
  backupDue : Bool
  /-- contents of `last_sync_state.json`, `none` if the file is missing. -/
  lastSyncFile : Option SyncState
  /-- `ff.getExceptions(ffConn)`. -/
  localRules : List CookieExceptionRule
  /-- `datetime.now().isoformat()`. -/
  nowIso : String
  /-- outcome of `downloadSyncState(webdavClient)`. -/
  download : DownloadResult
  /-- whether the n-th `uploadSyncState` attempt of this run succeeds. -/
  uploadOk : Nat → Bool

/-- The baseline snapshot (`sync.py`, lines 259-269): the file if present,
otherwise the epoch placeholder. -/
def Env.lastState (env : Env) : SyncState :=
  env.lastSyncFile.getD epochState

/-- `local_state` (`sync.py`, lines 271-274). -/
def Env.localState (env : Env) : SyncState :=
  ⟨env.nowIso, env.localRules⟩

/-- `new_local_changes` (`sync.py`, lines 277-279):
`set(last_sync_state["exceptionRules"]) != set(local_state["exceptionRules"])`. -/
def Env.newLocalChanges (env : Env) : Bool :=
  !(rulesSetEq env.lastState.exceptionRules env.localState.exceptionRules)

/-- Fetching the remote state (`sync.py`, lines 283-292): a download error
is fatal inside `downloadSyncState`; a 404 bootstraps an empty epoch state
and (outside simulate mode) uploads it.  Returns the remote state, the
`IS_INITIAL_SYNC` flag, the writes performed, and the number of upload
attempts consumed. -/
def Env.fetchRemote (env : Env) :
    Except RunResult (SyncState × Bool × List Effect × Nat) :=
  match env.download with
  | .err => .error (.fatal .downloadFailed [])
  | .ok s => .ok (s, false, [], 0)
  | .notFound =>
    if env.simulate then
      .ok (epochState, true, [], 0)
    else if env.uploadOk 0 then
      .ok (epochState, true, [.remoteUpload epochState], 1)
    else
      .error (.fatal .uploadFailed [])

/-- `panic_detected` (`sync.py`, lines 301-307): the remote rule list is
empty on a non-initial sync, or the local rule list is empty. -/
def panicDetected (remote : SyncState) (isInitial : Bool)
    (localRules : List CookieExceptionRule) : Bool :=
  (remote.exceptionRules.length == 0 && !isInitial) ||
    localRules.length == 0

/-- The panic gate (`sync.py`, lines 308-310): abort when the panic config
value is truthy and a panic was detected. -/
def Env.panicAborts (env : Env) (remote : SyncState) (isInitial : Bool) : Bool :=
  env.panicCfg && panicDetected remote isInitial env.localRules

/-- The four-way dispatch of `main` (`sync.py`, lines 312-347), whose
conditions compare the ISO `syncDate` strings with Python `<` / `==`. -/
inductive Branch where
  | pull
  | merge
  | noop
  | push
  | impossible
deriving DecidableEq, Repr

/-- Which branch of the `if`/`elif` chain at `sync.py` lines 312-347 a run
with the given baseline `syncDate`, remote `syncDate` and
`new_local_changes` value takes. -/
def decideBranch (lastIso remoteIso : String) (localChanged : Bool) : Branch :=
  if pyStrLt lastIso remoteIso && !localChanged then .pull
  else if pyStrLt lastIso remoteIso && localChanged then .merge
  else if lastIso == remoteIso && !localChanged then .noop
  else if lastIso == remoteIso && localChanged then .push
  else .impossible

/-- `ff.replaceRules` (`ff.py`, lines 247-260): `assert len(rules) > 0`
first (failure modelled as `none`, before any row is deleted), then the
cookie-row delete, then the bulk insert. -/
inductive DbWrite where
  | deleteAllCookieExceptions
  | insertRules (rules : List CookieExceptionRule)
deriving DecidableEq, Repr

/-- `ff.replaceRules`, returning the database writes it performs, or
`none` for the `AssertionError` on an empty input. -/
def replaceRules (rules : List CookieExceptionRule) : Option (List DbWrite) :=
  if rules.length > 0 then
    some [.deleteAllCookieExceptions, .insertRules rules]
  else
    none

/-- `mergeChanges` (`sync.py`, lines 210-226).  Outer `none` models the
`exit(1)` on an unknown strategy; inner `none` is the `do_nothing`
strategy returning Python `None`.  Note `use_newest` keeps the **remote**
state when the `syncDate` strings are equal (the `else` arm of
`local > remote`). -/
def mergeChanges (strategy : String) (localState remoteState : SyncState) :
    Option (Option SyncState) :=
  if strategy == "use_newest" then
    if pyStrLt remoteState.syncDate localState.syncDate then
      some (some localState)
    else
      some (some remoteState)
  else if strategy == "use_local" then some (some localState)
  else if strategy == "use_remote" then some (some remoteState)
  else if strategy == "do_nothing" then some none
  else none

/-- Is an effect the baseline persist? (`saveLastSyncState` creates
`last_sync_state.json`, which the backup step's assertion checks for.) -/
def Effect.isBaselinePersist : Effect → Bool
  | .baselinePersist _ => true
  | _ => false

/-- The backup step at the end of `main` (`sync.py`, lines 349-353 and
`backupSyncState`, lines 189-207): skipped unless enabled; asserts the
interval is configured; when the interval has elapsed, asserts
`last_sync_state.json` exists (it does if it existed at start or a
baseline persist ran) and copies it. -/
def backupStep (env : Env) (effects : List Effect) : RunResult :=
  if env.backupEnabled then
    if !env.backupIntervalOk then .fatal .backupAssert effects
    else if env.backupDue then
      if env.lastSyncFile.isSome || effects.any Effect.isBaselinePersist then
        .completed (effects ++ [.backupFile])
      else
        .fatal .backupAssert effects
    else
      .completed effects
  else
    .completed effects

/-- The panic gate and four-case dispatch of `main` (`sync.py`, lines
300-353) given the fetched remote state: perform the writes of the chosen
branch (suppressed by `--simulate`), then the backup step.  Every write
branch persists `local_state` as the new baseline, exactly as the source
does. -/
def dispatchRun (env : Env) (remote : SyncState) (isInitial : Bool)
    (effs0 : List Effect) (upCount : Nat) : RunResult :=
  if env.panicAborts remote isInitial then
    .fatal .panic effs0
  else
    match decideBranch env.lastState.syncDate remote.syncDate
        env.newLocalChanges with
      | .pull =>
        if env.simulate then backupStep env effs0
        else
          match replaceRules remote.exceptionRules with
          | none => .fatal .emptyRulesAssert effs0
          | some _ =>
            backupStep env
              (effs0 ++ [.localReplace remote.exceptionRules,
                .baselinePersist env.localState])
      | .merge =>
        match mergeChanges env.mergeStrategy env.localState remote with
        | none => .fatal .invalidMergeStrategy effs0
        | some none => backupStep env effs0
        | some (some merged) =>
          if env.simulate then backupStep env effs0
          else
            match replaceRules merged.exceptionRules with
            | none => .fatal .emptyRulesAssert effs0
            | some _ =>
              if env.uploadOk upCount then
                backupStep env
                  (effs0 ++ [.localReplace merged.exceptionRules,
                    .remoteUpload merged, .baselinePersist env.localState])
              else
                .fatal .uploadFailed (effs0 ++ [.localReplace merged.exceptionRules])
      | .noop => .success effs0
      | .push =>
        if env.simulate then backupStep env effs0
        else if env.uploadOk upCount then
          backupStep env
            (effs0 ++ [.remoteUpload env.localState, .baselinePersist env.localState])
        else
          .fatal .uploadFailed effs0
      | .impossible => .fatal .impossibleState effs0

/-- The body of `main` (`sync.py`, lines 259-353) from the baseline load
on: read baseline and local state, fetch (or bootstrap) the remote state,
then run the panic gate and the dispatch. -/
def runSync (env : Env) : RunResult :=
  match env.fetchRemote with
  | .error r => r
  | .ok (remote, isInitial, effs0, upCount) =>
    dispatchRun env remote isInitial effs0 upCount

/-! ## Concrete fixtures used by witnesses and counterexamples -/

/-- A rule meeting all three validity conditions of the specification. -/
def ruleA : CookieExceptionRule :=
  ⟨"https://a.example", .ALWAYS, ⟨2020, 1, 1, 0, 0, 0, 0⟩⟩

/-- A modified version of `ruleA` (same origin, newer time, other kind). -/
def ruleA2 : CookieExceptionRule :=
  ⟨"https://a.example", .SESSION, ⟨2021, 2, 2, 0, 0, 0, 0⟩⟩

/-- A rule for a second origin. -/
def ruleB : CookieExceptionRule :=
  ⟨"https://b.example", .SESSION, ⟨2022, 3, 3, 0, 0, 0, 0⟩⟩

/-- Snapshots with equal `syncDate` strings but different rules. -/
def localTie : SyncState := ⟨"2024-01-01T00:00:00", [ruleA]⟩

/-- The remote counterpart of `localTie`. -/
def remoteTie : SyncState := ⟨"2024-01-01T00:00:00", [ruleB]⟩

/-- A remote snapshot strictly newer than the baseline, with a modified
rule: together with `envPull` this drives the pull branch. -/
def remotePull : SyncState := ⟨"2024-06-01T00:00:00", [ruleA2]⟩

/-- A run that takes the pull branch: baseline older than the remote,
local rules identical to the baseline rules. -/
def envPull : Env :=
  ⟨false, true, "use_newest", false, true, false,
    some ⟨"2024-01-01T00:00:00", [ruleA]⟩, [ruleA], "2024-07-01T00:00:00",
    .ok remotePull, fun _ => true⟩

/-- A run whose persisted baseline carries a `syncDate` later than the
remote's: the dispatch falls through to the `Impossible state` branch. -/
def envStale : Env :=
  ⟨false, true, "use_newest", false, true, false,
    some ⟨"2024-06-02T00:00:00", [ruleA]⟩, [ruleA], "2024-07-01T00:00:00",
    .ok ⟨"2024-06-01T00:00:00", [ruleA]⟩, fun _ => true⟩

/-- A run that takes the merge branch and whose remote upload fails. -/
def envMergeUploadFail : Env :=
  ⟨false, true, "use_newest", false, true, false,
    some ⟨"2024-01-01T00:00:00", [ruleA]⟩, [ruleA, ruleB], "2024-07-01T00:00:00",
    .ok remotePull, fun _ => false⟩

/-- A run where local, baseline and remote rule sets are set-equal but the
remote `syncDate` is newer than the baseline's. -/
def envEqualSetsNewerRemote : Env :=
  ⟨false, true, "use_newest", false, true, false,
    some ⟨"2024-01-01T00:00:00", [ruleA]⟩, [ruleA], "2024-07-01T00:00:00",
    .ok ⟨"2024-06-01T00:00:00", [ruleA]⟩, fun _ => true⟩

/-- A run where local, baseline and remote agree and the `syncDate`s of
baseline and remote are equal: the no-op branch.  Backups are enabled and
due, which the no-op `exit(0)` nevertheless skips. -/
def envNoop : Env :=
  ⟨false, true, "use_newest", true, true, true,
    some ⟨"2024-06-01T00:00:00", [ruleA]⟩, [ruleA], "2024-07-01T00:00:00",
    .ok ⟨"2024-06-01T00:00:00", [ruleA]⟩, fun _ => true⟩

/-- A non-bootstrap run against an empty remote with the panic policy
enabled. -/
def envPanic : Env :=
  ⟨false, true, "use_newest", false, true, false,
    some ⟨"2024-01-01T00:00:00", [ruleA]⟩, [ruleA], "2024-07-01T00:00:00",
    .ok ⟨"2024-06-01T00:00:00", []⟩, fun _ => true⟩

/-! ## Helper lemmas -/

/-- `chListLt` is irreflexive. -/
theorem chListLt_irrefl : ∀ l, chListLt l l = false
  | [] => rfl
  | a :: as => by
    simp [chListLt, Nat.lt_irrefl, chListLt_irrefl as]

/-- `chListLt` is asymmetric. -/
theorem chListLt_asymm : ∀ as bs, chListLt as bs = true → chListLt bs as = false
  | [], [], h => by simp [chListLt] at h
  | [], _ :: _, _ => rfl
  | _ :: _, [], h => by simp [chListLt] at h
  | a :: as, b :: bs, h => by
    by_cases hab : a.toNat < b.toNat
    · have hba : ¬ b.toNat < a.toNat := Nat.lt_asymm hab
      simp [chListLt, hab, hba]
    · by_cases hba : b.toNat < a.toNat
      · simp [chListLt, hab, hba] at h
      · simp [chListLt, hab, hba] at h ⊢
        exact chListLt_asymm as bs h

/-- `pyStrLt` is irreflexive. -/
theorem pyStrLt_irrefl (s : String) : pyStrLt s s = false :=
  chListLt_irrefl s.toList

/-- `pyStrLt` is asymmetric. -/
theorem pyStrLt_asymm {a b : String} (h : pyStrLt a b = true) :
    pyStrLt b a = false :=
  chListLt_asymm a.toList b.toList h

/-- Rewriting `runSync` when the remote fetch step succeeds. -/
theorem runSync_ok (env : Env) (r : SyncState) (b : Bool)
    (es : List Effect) (n : Nat)
    (h : env.fetchRemote = .ok (r, b, es, n)) :
    runSync env = dispatchRun env r b es n := by
  unfold runSync
  rw [h]

/-- Rewriting `runSync` when the remote fetch step dies. -/
theorem runSync_err (env : Env) (res : RunResult)
    (h : env.fetchRemote = .error res) :
    runSync env = res := by
  unfold runSync
  rw [h]

/-- The effects accumulated by a successful remote fetch never include the
local backup-file copy. -/
theorem fetchRemote_no_backup (env : Env) (r : SyncState) (b : Bool)
    (es : List Effect) (n : Nat)
    (h : env.fetchRemote = .ok (r, b, es, n)) :
    Effect.backupFile ∉ es := by
  unfold Env.fetchRemote at h
  repeat' split at h
  all_goals try simp_all
  all_goals
    obtain ⟨-, -, hes, -⟩ := h
    subst hes
    simp

/-- The only fatal exit inside the backup step is its own assertion, and
it performs no write beyond those already accumulated. -/
theorem backupStep_fatal_site (env : Env) (es : List Effect)
    (site : FatalSite) (effs : List Effect)
    (h : backupStep env es = .fatal site effs) :
    site = .backupAssert ∧ effs = es := by
  unfold backupStep at h
  repeat' split at h
  all_goals simp_all

/-- A run whose remote download succeeds, whose panic gate passes, and
whose baseline `syncDate` equals the remote's with locally unchanged rules
takes the no-op branch: `exit(0)` with no writes. -/
theorem runSync_noop (env : Env) (r : SyncState)
    (hdl : env.download = .ok r)
    (hp : env.panicAborts r false = false)
    (heq : env.lastState.syncDate = r.syncDate)
    (hch : env.newLocalChanges = false) :
    runSync env = .success [] := by
  have hf : env.fetchRemote = .ok (r, false, [], 0) := by
    simp [Env.fetchRemote, hdl]
  have hb : decideBranch env.lastState.syncDate r.syncDate
      env.newLocalChanges = .noop := by
    unfold decideBranch
    rw [heq, hch]
    simp [pyStrLt_irrefl]
  rw [runSync_ok env r false [] 0 hf]
  unfold dispatchRun
  simp [hp, hb]

/-! ## Claims -/

/-- **C1.** The claim states that `verify` returns `true` iff the
permission is one of the two recognized kinds, the origin contains
`"://"`, and the modification year lies in `[2000, 2050]`, and in
particular returns `true` for every rule meeting the three conditions.
In the code the first check compares the `Permission` enum member against
the strings `"always"`/`"session"`, which is never true in Python, so
`verify` returns `false` for **every** rule — including `ruleA`, which
meets all three conditions. -/
theorem C1_verify_rejects_every_rule :
    (∀ r : CookieExceptionRule, r.verify = false) ∧
    (hasSchemeSep ruleA.origin = true ∧
      2000 ≤ ruleA.modificationTime.year ∧
      ruleA.modificationTime.year ≤ 2050 ∧
      ruleA.verify = false) := by
  refine ⟨fun r => rfl, by decide, by decide, by decide, rfl⟩

/-- **C2.** The claim states that decoding `to_dict r` succeeds and
reproduces `r`.  In the code `from_dict` calls `Permission(d["permission"])`,
an enum lookup **by value**, on the serialized member **name**
(`"ALWAYS"`/`"SESSION"`), which raises `ValueError`; hence decoding the
encoding of any rule fails. -/
theorem C2_roundtrip_decode_fails :
    ∀ r : CookieExceptionRule, CookieExceptionRule.from_dict r.to_dict = none := by
  intro r
  cases r.permission <;> rfl

/-- **C4 (counterexample).** On exact `syncDate` equality the `use_newest`
strategy returns the **remote** snapshot, not the local one as the claim
states: the tie lands in the `else` arm of `local > remote`. -/
theorem C4_counterexample :
    localTie.syncDate = remoteTie.syncDate ∧
    mergeChanges "use_newest" localTie remoteTie = some (some remoteTie) ∧
    remoteTie ≠ localTie :=
  ⟨rfl, rfl, by decide⟩

/-- **C4 (amended).** The `use_newest` strategy keeps whichever snapshot
has the strictly later `syncDate`; on exact equality the **remote**
snapshot wins. -/
theorem C4_amended_newest_tie_remote (l r : SyncState) :
    (pyStrLt r.syncDate l.syncDate = true →
      mergeChanges "use_newest" l r = some (some l)) ∧
    (pyStrLt l.syncDate r.syncDate = true →
      mergeChanges "use_newest" l r = some (some r)) ∧
    (l.syncDate = r.syncDate →
      mergeChanges "use_newest" l r = some (some r)) := by
  unfold mergeChanges
  refine ⟨fun h => by simp [h], fun h => ?_, fun h => ?_⟩
  · simp [pyStrLt_asymm h]
  · rw [h]
    simp [pyStrLt_irrefl]

/-- **C4 (witness).** The amended tie-break at a concrete input. -/
theorem C4_amended_witness :
    localTie.syncDate = remoteTie.syncDate ∧
    mergeChanges "use_newest" localTie remoteTie = some (some remoteTie) :=
  ⟨rfl, (C4_amended_newest_tie_remote localTie remoteTie).2.2 rfl⟩

/-- **C3.** The claim states that the pull branch persists the **remote**
snapshot as the new baseline and the merge branch the **merged** snapshot.
In the code every write branch calls `saveLastSyncState(config,
local_state)`: on the concrete pull run `envPull` the rules written to the
local store are the remote's (`[ruleA2]`) while the baseline persisted is
`local_state` — the pre-pull local snapshot `⟨now, [ruleA]⟩`, which is not
the remote snapshot. -/
theorem C3_pull_persists_local_state :
    runSync envPull =
      .completed [.localReplace remotePull.exceptionRules,
        .baselinePersist ⟨"2024-07-01T00:00:00", [ruleA]⟩] ∧
    (⟨"2024-07-01T00:00:00", [ruleA]⟩ : SyncState) ≠ remotePull :=
  ⟨rfl, by decide⟩

/-- **C5 (counterexample).** A baseline whose `syncDate` is later than the
remote's reaches none of the four cases: the run dies in the fatal
`Impossible state` branch, so the dispatch is not exhaustive there. -/
theorem C5_counterexample :
    pyStrLt (⟨"2024-06-01T00:00:00", [ruleA]⟩ : SyncState).syncDate
      envStale.lastState.syncDate = true ∧
    envStale.download = .ok ⟨"2024-06-01T00:00:00", [ruleA]⟩ ∧
    runSync envStale = .fatal .impossibleState [] :=
  ⟨by decide, rfl, rfl⟩

/-- **C6 (counterexample).** A merge-branch run whose remote upload fails
exits fatally **after** the local replace has been performed: the run's
write list at the fatal exit is non-empty, refuting the claim that every
fatal condition aborts before any destructive write. -/
theorem C6_counterexample :
    runSync envMergeUploadFail =
      .fatal .uploadFailed [.localReplace [ruleA, ruleB]] ∧
    RunResult.effects (runSync envMergeUploadFail) ≠ [] :=
  ⟨rfl, by decide⟩

/-- **C7 (counterexample).** Local, baseline and remote rule sets are
set-equal, but because the remote `syncDate` is newer than the baseline's
the run takes the pull branch and writes (a local replace and a baseline
persist), refuting the zero-writes claim. -/
theorem C7_counterexample :
    rulesSetEq envEqualSetsNewerRemote.lastState.exceptionRules
      envEqualSetsNewerRemote.localRules = true ∧
    rulesSetEq envEqualSetsNewerRemote.localRules [ruleA] = true ∧
    envEqualSetsNewerRemote.download = .ok ⟨"2024-06-01T00:00:00", [ruleA]⟩ ∧
    RunResult.effects (runSync envEqualSetsNewerRemote) ≠ [] :=
  ⟨rfl, rfl, rfl, by decide⟩

/-- **C8.** On a non-bootstrap run (the remote state downloads
successfully) whose remote rule set is empty, with a non-empty local rule
set and the panic policy enabled, the run dies at the panic gate with no
write performed. -/
theorem C8_panic_aborts_without_writes (env : Env) (r : SyncState)
    (hdl : env.download = .ok r)
    (hremote : r.exceptionRules = [])
    (_hlocal : env.localRules ≠ [])
    (hpanic : env.panicCfg = true) :
    runSync env = .fatal .panic [] := by
  have hf : env.fetchRemote = .ok (r, false, [], 0) := by
    simp [Env.fetchRemote, hdl]
  have hp : env.panicAborts r false = true := by
    simp [Env.panicAborts, panicDetected, hremote, hpanic]
  rw [runSync_ok env r false [] 0 hf]
  unfold dispatchRun
  simp [hp]

/-- **C8 (witness).** The panic abort at a concrete input. -/
theorem C8_witness : runSync envPanic = .fatal .panic [] :=
  C8_panic_aborts_without_writes envPanic ⟨"2024-06-01T00:00:00", []⟩
    rfl rfl (by decide) rfl

/-- **C9.** `replaceRules` refuses an empty rule list: its `assert` fires
before the delete statement (modelled as `none`, performing no database
write), so any successful call had a non-empty input. -/
theorem C9_replaceRules_refuses_empty :
    replaceRules [] = none ∧
    ∀ (rs : List CookieExceptionRule) (ws : List DbWrite),
      replaceRules rs = some ws → rs ≠ [] := by
  refine ⟨rfl, fun rs ws h hrs => ?_⟩
  subst hrs
  simp [replaceRules] at h

/-- **C9 (witness).** A successful call on a singleton list, whose input
is indeed non-empty. -/
theorem C9_witness :
    replaceRules [ruleA] =
      some [.deleteAllCookieExceptions, .insertRules [ruleA]] ∧
    ([ruleA] : List CookieExceptionRule) ≠ [] :=
  ⟨rfl, C9_replaceRules_refuses_empty.2 [ruleA]
    [.deleteAllCookieExceptions, .insertRules [ruleA]] rfl⟩

/-- **C5 (amended).** Whenever the baseline `syncDate` is at most the
remote's — which is every state the driver itself can produce when the
baseline tracks the applied snapshot — the dispatch lands in exactly one
of the four cases and the `Impossible state` branch is not taken; and when
additionally the `syncDate`s are equal and the local rules equal the
baseline rules, the run is a no-op that exits successfully with nothing
written. -/
theorem C5_amended_dispatch_exhaustive_below (env : Env) (r : SyncState)
    (hdl : env.download = .ok r)
    (hord : pyStrLt env.lastState.syncDate r.syncDate = true ∨
      env.lastState.syncDate = r.syncDate) :
    decideBranch env.lastState.syncDate r.syncDate env.newLocalChanges ≠
      .impossible ∧
    (env.panicAborts r false = false →
      env.lastState.syncDate = r.syncDate →
      env.newLocalChanges = false →
      runSync env = .success []) := by
  constructor
  · unfold decideBranch
    rcases hord with h | h
    · cases hc : env.newLocalChanges <;> simp [h, hc]
    · rw [h]
      cases hc : env.newLocalChanges <;> simp [pyStrLt_irrefl, hc]
  · exact fun hp heq hch => runSync_noop env r hdl hp heq hch

/-- **C5 (witness).** The amended dispatch claim at a concrete no-op run. -/
theorem C5_amended_witness :
    decideBranch envNoop.lastState.syncDate "2024-06-01T00:00:00"
      envNoop.newLocalChanges ≠ .impossible ∧
    runSync envNoop = .success [] := by
  have h := C5_amended_dispatch_exhaustive_below envNoop
    ⟨"2024-06-01T00:00:00", [ruleA]⟩ rfl (Or.inr rfl)
  exact ⟨h.1, h.2 rfl rfl (by decide)⟩

/-- **C6 (amended).** Fatal conditions detected before the write phase —
a failed remote download, the panic gate, an invalid merge strategy — do
abort a non-bootstrap run with no write performed; the original claim
fails only for fatal errors inside the write phase (see the
counterexample: an upload failure in the merge branch follows the local
replace). -/
theorem C6_amended_prewrite_fatals_have_no_writes (env : Env)
    (site : FatalSite) (effs : List Effect)
    (hnb : env.download ≠ .notFound)
    (hrun : runSync env = .fatal site effs)
    (hsite : site = .downloadFailed ∨ site = .panic ∨
      site = .invalidMergeStrategy) :
    effs = [] := by
  cases hdl : env.download with
  | notFound => exact absurd hdl hnb
  | err =>
    have hf : env.fetchRemote = .error (.fatal .downloadFailed []) := by
      simp [Env.fetchRemote, hdl]
    rw [runSync_err env _ hf] at hrun
    simp only [RunResult.fatal.injEq] at hrun
    exact hrun.2.symm
  | ok s =>
    have hf : env.fetchRemote = .ok (s, false, [], 0) := by
      simp [Env.fetchRemote, hdl]
    rw [runSync_ok env s false [] 0 hf] at hrun
    unfold dispatchRun at hrun
    rcases hsite with hs | hs | hs <;> subst hs <;>
      (repeat' split at hrun) <;>
      try (have hba := backupStep_fatal_site _ _ _ _ hrun; simp_all)
    all_goals simp_all

/-- **C6 (witness).** A concrete non-bootstrap panic abort, which indeed
performed no write. -/
theorem C6_amended_witness :
    runSync envPanic = .fatal .panic [] ∧ ([] : List Effect) = [] :=
  ⟨by decide,
    C6_amended_prewrite_fatals_have_no_writes envPanic .panic []
      (by decide) (by decide) (Or.inr (Or.inl rfl))⟩

/-- **C7 (amended).** If local, baseline and remote rule sets are
set-equal **and** the baseline and remote `syncDate`s are equal, the run
performs zero writes and exits successfully; with a newer remote
`syncDate` the same rule sets take the pull branch and write (see the
counterexample). -/
theorem C7_amended_noop_stability (env : Env) (r : SyncState)
    (hdl : env.download = .ok r)
    (heq : env.lastState.syncDate = r.syncDate)
    (hbl : rulesSetEq env.lastState.exceptionRules env.localRules = true)
    (_hlr : rulesSetEq env.localRules r.exceptionRules = true)
    (hp : env.panicAborts r false = false) :
    runSync env = .success [] := by
  have hch : env.newLocalChanges = false := by
    unfold Env.newLocalChanges
    simp [Env.localState, hbl]
  exact runSync_noop env r hdl hp heq hch

/-- **C7 (witness).** The amended no-op stability at a concrete run. -/
theorem C7_amended_witness : runSync envNoop = .success [] :=
  C7_amended_noop_stability envNoop ⟨"2024-06-01T00:00:00", [ruleA]⟩
    rfl rfl (by decide) (by decide) rfl

/-- **C10.** The no-op branch exits the process with success immediately,
skipping the backup step at the end of `main`; consequently a backup file
is created only by a run that took the pull, merge, or push branch. -/
theorem C10_noop_skips_backup (env : Env) (r : SyncState) (isInit : Bool)
    (effs0 : List Effect) (n : Nat)
    (hfetch : env.fetchRemote = .ok (r, isInit, effs0, n))
    (hpanic : env.panicAborts r isInit = false) :
    (decideBranch env.lastState.syncDate r.syncDate env.newLocalChanges =
        .noop →
      runSync env = .success effs0 ∧
      Effect.backupFile ∉ (runSync env).effects) ∧
    (Effect.backupFile ∈ (runSync env).effects →
      decideBranch env.lastState.syncDate r.syncDate env.newLocalChanges =
        .pull ∨
      decideBranch env.lastState.syncDate r.syncDate env.newLocalChanges =
        .merge ∨
      decideBranch env.lastState.syncDate r.syncDate env.newLocalChanges =
        .push) := by
  have hnb := fetchRemote_no_backup env r isInit effs0 n hfetch
  have hrw := runSync_ok env r isInit effs0 n hfetch
  constructor
  · intro hb
    have hs : runSync env = .success effs0 := by
      rw [hrw]
      unfold dispatchRun
      simp [hpanic, hb]
    refine ⟨hs, ?_⟩
    rw [hs]
    exact hnb
  · intro hmem
    cases hbr : decideBranch env.lastState.syncDate r.syncDate
        env.newLocalChanges with
    | pull => exact Or.inl rfl
    | merge => exact Or.inr (Or.inl rfl)
    | push => exact Or.inr (Or.inr rfl)
    | noop =>
      have hs : runSync env = .success effs0 := by
        rw [hrw]
        unfold dispatchRun
        simp [hpanic, hbr]
      rw [hs] at hmem
      exact absurd hmem hnb
    | impossible =>
      have hs : runSync env = .fatal .impossibleState effs0 := by
        rw [hrw]
        unfold dispatchRun
        simp [hpanic, hbr]
      rw [hs] at hmem
      exact absurd hmem hnb

/-- **C10 (witness).** A concrete no-op run with backups enabled and due,
which still exits successfully without creating a backup file. -/
theorem C10_witness :
    runSync envNoop = .success [] ∧
    Effect.backupFile ∉ (runSync envNoop).effects :=
  (C10_noop_skips_backup envNoop ⟨"2024-06-01T00:00:00", [ruleA]⟩
    false [] 0 rfl rfl).1 (by decide)

end FFCEM
